import Mathlib

/-!
Shallow embedding of the TravelCalculator module of the fantasymap
repository (travel-time / distance computation).  JavaScript numbers are
idealised as elements of a linear ordered field `K` (instantiated at `ℚ`
for executable evaluation and at `ℝ` where the code takes square roots);
`Math.floor` is `Int.floor`, `Math.round` is floor of `x + 1/2` (JS rounds
half toward positive infinity), and the JS `%` operator is the truncated
remainder `a - n * trunc (a / n)`.
-/

set_option linter.unusedSectionVars false
set_option linter.unusedVariables false

variable {K : Type} [LinearOrderedField K] [FloorRing K] [DecidableEq K]

/-- A point `{x, y}` in pixel space. -/
structure Point (K : Type) where
  x : K
  y : K
deriving Repr

/-- The `scale` object: `{ pixelsPerUnit, unit }`. -/
structure Scale (K : Type) where
  pixelsPerUnit : K
  unit : String
deriving Repr

/-- The mutable state of the calculator that the claims touch:
`speeds` (a JS object, modelled as an association list over its own
keys), `hoursPerDay` and `scale`.  The spec calls this aggregate
`TravelSettings`. -/
structure Settings (K : Type) where
  speeds : List (String × K)
  hoursPerDay : K
  scale : Scale K

/-- `defaultSpeeds: { walking: 3, horse: 8, wagon: 4 }`. -/
def defaultSpeeds (K : Type) [LinearOrderedField K] : List (String × K) :=
  [("walking", 3), ("horse", 8), ("wagon", 4)]

/-- The state after `init()` with empty storage: default speeds,
`hoursPerDay: 8`, `scale: { pixelsPerUnit: 1, unit: 'miles' }`. -/
def defaultSettings (K : Type) [LinearOrderedField K] : Settings K :=
  { speeds := defaultSpeeds K
    hoursPerDay := 8
    scale := { pixelsPerUnit := 1, unit := "miles" } }

/-- `unitConversions: { miles: 1, km: 0.621371, leagues: 3 }`. -/
def unitConversions (K : Type) [LinearOrderedField K] : List (String × K) :=
  [("miles", 1), ("km", 0.621371), ("leagues", 3)]

/-- JS `Math.round`: round half toward positive infinity. -/
def jsRound (x : K) : ℤ := ⌊x + 1 / 2⌋

/-- JS truncation toward zero, as used by the `%` operator. -/
def jsTrunc (x : K) : ℤ := if x < 0 then ⌈x⌉ else ⌊x⌋

/-- JS `a % n`: truncated remainder (sign of the dividend). -/
def jsMod (a n : K) : K := a - n * (jsTrunc (a / n) : K)

/-- `Math.round(x * 10) / 10`: round to one decimal place. -/
def round1 (x : K) : K := (jsRound (x * 10) : K) / 10

/-- `Math.round(x * 100) / 100`: round to two decimal places. -/
def round2 (x : K) : K := (jsRound (x * 100) : K) / 100

/-- JS `a || b` on an optional number `a`: `undefined` and `0` are falsy
and select `b`. -/
def jsOr (a : Option K) (b : K) : K :=
  match a with
  | some v => if v = 0 then b else v
  | none => b

/-- Property lookup `speeds[mode]` on the speeds object. -/
def lookupSpeed (speeds : List (String × K)) (mode : String) : Option K :=
  (speeds.find? (fun p => p.1 == mode)).map (fun p => p.2)

/-- `this.speeds[mode] || this.speeds.walking` from `calculateTravelTime`.
When `walking` is itself absent, JS would produce `undefined` (and `NaN`
downstream); that unreachable configuration is modelled as speed `0`. -/
def effectiveSpeed (s : Settings K) (mode : String) : K :=
  jsOr (lookupSpeed s.speeds mode) ((lookupSpeed s.speeds "walking").getD 0)

/-- Decimal rendering of `n / 10` as JS prints the rounded hours value:
an integer when the tenths digit is zero, otherwise one decimal digit. -/
def renderTenths (n : ℤ) : String :=
  let sign := if n < 0 then "-" else ""
  let m := n.natAbs
  if m % 10 = 0 then sign ++ toString (m / 10)
  else sign ++ toString (m / 10) ++ "." ++ toString (m % 10)

/-- `formatTime(days, hours)`: rounds `hours` to one decimal, then renders
minutes / hours / days per the source's branches (`days === 0`,
`hours < 1`, `hours === 0`, `days === 1`). -/
def formatTime (days : ℤ) (hours : K) : String :=
  let h := round1 hours
  if days = 0 then
    if h < 1 then toString (jsRound (h * 60)) ++ " min"
    else renderTenths (jsRound (hours * 10)) ++ " hr"
  else if h = 0 then
    if days = 1 then "1 day" else toString days ++ " days"
  else
    (if days = 1 then "1 day" else toString days ++ " days") ++ ", " ++
      renderTenths (jsRound (hours * 10)) ++ " hr"

/-- The object returned by `calculateTravelTime`. -/
structure Breakdown (K : Type) where
  totalHours : K
  days : ℤ
  hours : K
  formatted : String

/-- `calculateTravelTime(distanceInMiles, mode)`. -/
def calculateTravelTime (s : Settings K) (distanceInMiles : K) (mode : String) :
    Breakdown K :=
  let speed := effectiveSpeed s mode
  let totalHours := distanceInMiles / speed
  let days := ⌊totalHours / s.hoursPerDay⌋
  let remainingHours := jsMod totalHours s.hoursPerDay
  { totalHours := totalHours
    days := days
    hours := round1 remainingHours
    formatted := formatTime days remainingHours }

/-- `pixelsToDistance(pixels)`: `pixels * this.scale.pixelsPerUnit`. -/
def pixelsToDistance (scale : Scale K) (pixels : K) : K :=
  pixels * scale.pixelsPerUnit

/-- `toMiles(distance)`: `distance * (this.unitConversions[this.scale.unit] || 1)`. -/
def toMiles (scale : Scale K) (distance : K) : K :=
  distance *
    jsOr (((unitConversions K).find? (fun p => p.1 == scale.unit)).map (fun p => p.2)) 1

/-- `setSpeed(mode, speed)`: assigns only when
`this.speeds.hasOwnProperty(mode)`; otherwise the call does nothing. -/
def setSpeed (s : Settings K) (mode : String) (speed : K) : Settings K :=
  if (s.speeds.find? (fun p => p.1 == mode)).isSome then
    { s with speeds := s.speeds.map (fun p => if p.1 == mode then (p.1, speed) else p) }
  else s

/-- `setHoursPerDay(hours)`: `Math.max(1, Math.min(24, hours))`. -/
def setHoursPerDay (s : Settings K) (hours : K) : Settings K :=
  { s with hoursPerDay := max 1 (min 24 hours) }

/-- `calculatePixelDistance(point1, point2)`:
`Math.sqrt(dx * dx + dy * dy)`. -/
noncomputable def calculatePixelDistance (p1 p2 : Point ℝ) : ℝ :=
  Real.sqrt ((p2.x - p1.x) * (p2.x - p1.x) + (p2.y - p1.y) * (p2.y - p1.y))

/-- One entry pushed onto `segments` in `calculateRouteTime`; the source
fields are named `from` and `to`. -/
structure RouteSegment (K : Type) where
  fromIndex : ℕ
  toIndex : ℕ
  pixelDistance : K
  distance : K

/-- The object returned by `calculateRouteTime`. -/
structure RouteResult (K : Type) where
  segments : List (RouteSegment K)
  totalPixelDistance : K
  totalDistance : K
  unit : String
  walking : Breakdown K
  horse : Breakdown K
  wagon : Breakdown K

/-- `calculateRouteTime(points)`.  The source's `for` loop over indices
`0 .. points.length - 2` visits exactly the consecutive pairs
`points.zip points.tail`, pushing one segment per pair and accumulating
the same per-pair pixel distances into `totalPixelDistance`. -/
noncomputable def calculateRouteTime (s : Settings ℝ) (points : List (Point ℝ)) :
    Option (RouteResult ℝ) :=
  if points.length < 2 then none
  else
    let pairs := points.zip points.tail
    let segments := pairs.enum.map (fun ip =>
      { fromIndex := ip.1
        toIndex := ip.1 + 1
        pixelDistance := calculatePixelDistance ip.2.1 ip.2.2
        distance := pixelsToDistance s.scale (calculatePixelDistance ip.2.1 ip.2.2) })
    let totalPixelDistance :=
      (pairs.map (fun pq => calculatePixelDistance pq.1 pq.2)).sum
    let totalDistance := pixelsToDistance s.scale totalPixelDistance
    let distanceInMiles := toMiles s.scale totalDistance
    some
      { segments := segments
        totalPixelDistance := totalPixelDistance
        totalDistance := round2 totalDistance
        unit := s.scale.unit
        walking := calculateTravelTime s distanceInMiles "walking"
        horse := calculateTravelTime s distanceInMiles "horse"
        wagon := calculateTravelTime s distanceInMiles "wagon" }

/-- Statement-side list of consecutive segment pixel distances of a
point sequence (what the loop body of `calculateRouteTime` computes per
iteration). -/
noncomputable def segmentPixelDistances (points : List (Point ℝ)) : List ℝ :=
  (points.zip points.tail).map (fun pq => calculatePixelDistance pq.1 pq.2)

/-! ## Helper lemmas -/

lemma jsOr_some_of_ne (v b : K) (hv : v ≠ 0) : jsOr (some v) b = v := by
  simp [jsOr, hv]

lemma effectiveSpeed_of_lookup (s : Settings K) (mode : String) (v : K)
    (h : lookupSpeed s.speeds mode = some v) (hv : v ≠ 0) :
    effectiveSpeed s mode = v := by
  rw [effectiveSpeed, h, jsOr_some_of_ne v _ hv]

lemma effectiveSpeed_walking (s : Settings K) :
    effectiveSpeed s "walking" = (lookupSpeed s.speeds "walking").getD 0 := by
  rw [effectiveSpeed]
  cases h : lookupSpeed s.speeds "walking" with
  | none => simp [jsOr, h]
  | some u =>
    by_cases hu : u = 0 <;> simp [jsOr, h, hu]

lemma effectiveSpeed_falsy (s : Settings K) (mode : String)
    (h : lookupSpeed s.speeds mode = none ∨ lookupSpeed s.speeds mode = some 0) :
    effectiveSpeed s mode = effectiveSpeed s "walking" := by
  rw [effectiveSpeed_walking]
  rcases h with h | h <;> simp [effectiveSpeed, h, jsOr]

lemma calculateTravelTime_congr_speed (s : Settings K) (d : K) (m1 m2 : String)
    (h : effectiveSpeed s m1 = effectiveSpeed s m2) :
    calculateTravelTime s d m1 = calculateTravelTime s d m2 := by
  unfold calculateTravelTime
  rw [h]

lemma calculateTravelTime_totalHours (s : Settings K) (d : K) (mode : String) :
    (calculateTravelTime s d mode).totalHours = d / effectiveSpeed s mode := rfl

lemma calculateTravelTime_days (s : Settings K) (d : K) (mode : String) :
    (calculateTravelTime s d mode).days =
      ⌊d / effectiveSpeed s mode / s.hoursPerDay⌋ := rfl

lemma calculateTravelTime_hours (s : Settings K) (d : K) (mode : String) :
    (calculateTravelTime s d mode).hours =
      round1 (jsMod (d / effectiveSpeed s mode) s.hoursPerDay) := rfl

lemma abs_floor_half_sub_le (y : ℚ) : |(⌊y + 1 / 2⌋ : ℚ) - y| ≤ 1 / 2 := by
  have h1 := Int.floor_le (y + 1 / 2)
  have h2 := Int.lt_floor_add_one (y + 1 / 2)
  rw [abs_le]
  constructor <;> linarith

lemma abs_round1_sub_le (x : ℚ) : |round1 x - x| ≤ 1 / 20 := by
  have h := abs_floor_half_sub_le (x * 10)
  have heq : round1 x - x = ((⌊x * 10 + 1 / 2⌋ : ℚ) - x * 10) / 10 := by
    rw [round1, jsRound]
    ring
  rw [heq, abs_div, abs_of_nonneg (by norm_num : (0 : ℚ) ≤ 10),
    div_le_iff₀ (by norm_num : (0 : ℚ) < 10)]
  linarith

/-! ## Claims -/

/-- Claim C1: for every distanceInMiles and every positive configured
speed, calculateTravelTime returns totalHours = distance / speed,
days = floor(totalHours / hoursPerDay), and hours = the JS remainder
totalHours % hoursPerDay rounded to one decimal with round-half-up. -/
theorem claim_C1 (s : Settings ℚ) (d : ℚ) (mode : String) (v : ℚ)
    (hlk : lookupSpeed s.speeds mode = some v) (hv : 0 < v) :
    (calculateTravelTime s d mode).totalHours = d / v ∧
    (calculateTravelTime s d mode).days = ⌊d / v / s.hoursPerDay⌋ ∧
    (calculateTravelTime s d mode).hours =
      (⌊jsMod (d / v) s.hoursPerDay * 10 + 1 / 2⌋ : ℚ) / 10 := by
  have he : effectiveSpeed s mode = v := effectiveSpeed_of_lookup s mode v hlk hv.ne'
  refine ⟨?_, ?_, ?_⟩
  · rw [calculateTravelTime_totalHours, he]
  · rw [calculateTravelTime_days, he]
  · rw [calculateTravelTime_hours, he, round1, jsRound]

/-- Witness for C1 at the default settings: walking 3 mph, 24 miles. -/
theorem claim_C1_witness :
    lookupSpeed (defaultSettings ℚ).speeds "walking" = some 3 ∧
    (0 : ℚ) < 3 ∧
    ((calculateTravelTime (defaultSettings ℚ) 24 "walking").totalHours = 24 / 3 ∧
     (calculateTravelTime (defaultSettings ℚ) 24 "walking").days =
       ⌊(24 : ℚ) / 3 / (defaultSettings ℚ).hoursPerDay⌋ ∧
     (calculateTravelTime (defaultSettings ℚ) 24 "walking").hours =
       (⌊jsMod ((24 : ℚ) / 3) (defaultSettings ℚ).hoursPerDay * 10 + 1 / 2⌋ : ℚ) / 10) :=
  ⟨by decide, by norm_num,
    claim_C1 (defaultSettings ℚ) 24 "walking" 3 (by decide) (by norm_num)⟩

/-- Claim C3 (corrected): the code raises no error for a non-positive
configured speed.  A configured speed of 0 is falsy under the JS `||`
and silently falls back to the walking speed; a negative configured
speed is truthy, is used as-is, and yields a numeric (negative) total. -/
theorem claim_C3 (s : Settings ℚ) (d : ℚ) (mode : String) (v : ℚ)
    (hlk : lookupSpeed s.speeds mode = some v) (hv : v ≤ 0) :
    (v = 0 → calculateTravelTime s d mode = calculateTravelTime s d "walking") ∧
    (v < 0 → (calculateTravelTime s d mode).totalHours = d / v) := by
  constructor
  · intro h0
    exact calculateTravelTime_congr_speed s d mode "walking"
      (effectiveSpeed_falsy s mode (Or.inr (h0 ▸ hlk)))
  · intro hneg
    rw [calculateTravelTime_totalHours,
      effectiveSpeed_of_lookup s mode v hlk hneg.ne]

/-- Counterexample to C3 as stated: with the horse speed configured to 0
(a speed ≤ 0), calculateTravelTime still returns a numeric breakdown
(24 miles at the silently substituted walking speed 3 gives 8 hours)
instead of reporting a DivisionByZero/InvalidSpeed error. -/
theorem claim_C3_counterexample :
    lookupSpeed (setSpeed (defaultSettings ℚ) "horse" 0).speeds "horse" = some 0 ∧
    (calculateTravelTime (setSpeed (defaultSettings ℚ) "horse" 0) 24 "horse").totalHours = 8 := by
  constructor
  · decide
  · rw [calculateTravelTime_totalHours,
      show effectiveSpeed (setSpeed (defaultSettings ℚ) "horse" 0) "horse" = 3 from by decide]
    norm_num

/-- Witness for C3's amended statement at horse speed 0. -/
theorem claim_C3_witness :
    lookupSpeed (setSpeed (defaultSettings ℚ) "horse" 0).speeds "horse" = some 0 ∧
    calculateTravelTime (setSpeed (defaultSettings ℚ) "horse" 0) 24 "horse" =
      calculateTravelTime (setSpeed (defaultSettings ℚ) "horse" 0) 24 "walking" :=
  ⟨by decide,
    (claim_C3 (setSpeed (defaultSettings ℚ) "horse" 0) 24 "horse" 0
      (by decide) le_rfl).1 rfl⟩

/-- Claim C10: a mode that is absent from the speeds map, or whose stored
speed is 0, silently computes with the walking speed: the breakdown equals
the walking breakdown. -/
theorem claim_C10 (s : Settings ℚ) (d : ℚ) (mode : String)
    (h : lookupSpeed s.speeds mode = none ∨ lookupSpeed s.speeds mode = some 0) :
    calculateTravelTime s d mode = calculateTravelTime s d "walking" :=
  calculateTravelTime_congr_speed s d mode "walking" (effectiveSpeed_falsy s mode h)

/-- Witness for C10 at the unknown mode "boat". -/
theorem claim_C10_witness :
    (lookupSpeed (defaultSettings ℚ).speeds "boat" = none ∨
      lookupSpeed (defaultSettings ℚ).speeds "boat" = some 0) ∧
    calculateTravelTime (defaultSettings ℚ) 24 "boat" =
      calculateTravelTime (defaultSettings ℚ) 24 "walking" :=
  ⟨Or.inl (by decide), claim_C10 (defaultSettings ℚ) 24 "boat" (Or.inl (by decide))⟩

lemma map_fst_speed_update (l : List (String × K)) (mode : String) (v : K) :
    (l.map (fun p => if p.1 == mode then (p.1, v) else p)).map Prod.fst =
      l.map Prod.fst := by
  rw [List.map_map]
  refine List.map_congr_left ?_
  intro p hp
  by_cases h : p.1 == mode <;> simp [Function.comp, h]

/-- Claim C4: setSpeed on a mode that is not already a key of the speeds
map leaves the settings unchanged (the UnknownMode case is a refusal to
write), and no setSpeed call ever changes the key set of the speeds map. -/
theorem claim_C4 :
    (∀ (s : Settings ℚ) (mode : String) (v : ℚ),
      lookupSpeed s.speeds mode = none → setSpeed s mode v = s) ∧
    (∀ (s : Settings ℚ) (mode : String) (v : ℚ),
      (setSpeed s mode v).speeds.map Prod.fst = s.speeds.map Prod.fst) := by
  constructor
  · intro s mode v h
    have hf : s.speeds.find? (fun p => p.1 == mode) = none :=
      Option.map_eq_none'.mp h
    rw [setSpeed, hf]
    simp
  · intro s mode v
    rw [setSpeed]
    split
    · exact map_fst_speed_update s.speeds mode v
    · rfl

/-- Witness for C4: the unknown mode "boat" is rejected at the default
settings, and updating "walking" keeps the key set. -/
theorem claim_C4_witness :
    lookupSpeed (defaultSettings ℚ).speeds "boat" = none ∧
    setSpeed (defaultSettings ℚ) "boat" 5 = defaultSettings ℚ ∧
    (setSpeed (defaultSettings ℚ) "walking" 5).speeds.map Prod.fst =
      (defaultSettings ℚ).speeds.map Prod.fst :=
  ⟨by decide, claim_C4.1 (defaultSettings ℚ) "boat" 5 (by decide),
    claim_C4.2 (defaultSettings ℚ) "walking" 5⟩

/-- Claim C5: setHoursPerDay clamps into [1, 24] instead of rejecting:
30 is stored as 24, 0 as 1, and any value already in [1, 24] unchanged. -/
theorem claim_C5 (s : Settings ℚ) :
    (setHoursPerDay s 30).hoursPerDay = 24 ∧
    (setHoursPerDay s 0).hoursPerDay = 1 ∧
    (∀ v : ℚ, 1 ≤ v → v ≤ 24 → (setHoursPerDay s v).hoursPerDay = v) ∧
    (∀ v : ℚ, 1 ≤ (setHoursPerDay s v).hoursPerDay ∧
      (setHoursPerDay s v).hoursPerDay ≤ 24) := by
  refine ⟨?_, ?_, ?_, ?_⟩
  · show max 1 (min 24 (30 : ℚ)) = 24
    norm_num [min_def, max_def]
  · show max 1 (min 24 (0 : ℚ)) = 1
    norm_num [min_def, max_def]
  · intro v h1 h24
    show max 1 (min 24 v) = v
    rw [min_eq_right h24, max_eq_right h1]
  · intro v
    exact ⟨le_max_left 1 _, max_le (by norm_num) (min_le_left 24 v)⟩

/-- Witness for C5 at the default settings, with 12 as the in-range value. -/
theorem claim_C5_witness :
    (setHoursPerDay (defaultSettings ℚ) 30).hoursPerDay = 24 ∧
    (setHoursPerDay (defaultSettings ℚ) 0).hoursPerDay = 1 ∧
    (setHoursPerDay (defaultSettings ℚ) 12).hoursPerDay = 12 ∧
    1 ≤ (setHoursPerDay (defaultSettings ℚ) 100).hoursPerDay ∧
    (setHoursPerDay (defaultSettings ℚ) 100).hoursPerDay ≤ 24 :=
  ⟨(claim_C5 (defaultSettings ℚ)).1, (claim_C5 (defaultSettings ℚ)).2.1,
    (claim_C5 (defaultSettings ℚ)).2.2.1 12 (by norm_num) (by norm_num),
    ((claim_C5 (defaultSettings ℚ)).2.2.2 100).1,
    ((claim_C5 (defaultSettings ℚ)).2.2.2 100).2⟩

lemma toMiles_unit_miles (scale : Scale K) (h : scale.unit = "miles") (d : K) :
    toMiles scale d = d * 1 := by
  rw [toMiles, h,
    show (((unitConversions K).find? (fun p => p.1 == "miles")).map (fun p => p.2)) =
      some 1 from rfl]
  simp [jsOr]

lemma toMiles_unit_km (scale : Scale K) (h : scale.unit = "km") (d : K) :
    toMiles scale d = d * 0.621371 := by
  rw [toMiles, h,
    show (((unitConversions K).find? (fun p => p.1 == "km")).map (fun p => p.2)) =
      some 0.621371 from rfl]
  rw [show jsOr (some (0.621371 : K)) 1 = 0.621371 from by
    simp [jsOr]
    norm_num]

lemma toMiles_unit_leagues (scale : Scale K) (h : scale.unit = "leagues") (d : K) :
    toMiles scale d = d * 3 := by
  rw [toMiles, h,
    show (((unitConversions K).find? (fun p => p.1 == "leagues")).map (fun p => p.2)) =
      some 3 from rfl]
  rw [show jsOr (some (3 : K)) 1 = 3 from by simp [jsOr]]

lemma toMiles_unit_unknown (scale : Scale K)
    (h1 : scale.unit ≠ "miles") (h2 : scale.unit ≠ "km") (h3 : scale.unit ≠ "leagues")
    (d : K) : toMiles scale d = d * 1 := by
  have b1 : (("miles" : String) == scale.unit) = false :=
    beq_eq_false_iff_ne.mpr (Ne.symm h1)
  have b2 : (("km" : String) == scale.unit) = false :=
    beq_eq_false_iff_ne.mpr (Ne.symm h2)
  have b3 : (("leagues" : String) == scale.unit) = false :=
    beq_eq_false_iff_ne.mpr (Ne.symm h3)
  rw [toMiles]
  rw [show ((unitConversions K).find? (fun p => p.1 == scale.unit)) = none from by
    simp [unitConversions, List.find?, b1, b2, b3]]
  rfl

/-- Claim C6: toMiles multiplies by the fixed table entry for the current
unit (miles 1, km 0.621371, leagues 3) and falls back to multiplier 1 for
any unrecognized unit instead of erroring. -/
theorem claim_C6 (scale : Scale ℚ) (d : ℚ) :
    (scale.unit = "miles" → toMiles scale d = d * 1) ∧
    (scale.unit = "km" → toMiles scale d = d * 0.621371) ∧
    (scale.unit = "leagues" → toMiles scale d = d * 3) ∧
    (scale.unit ≠ "miles" → scale.unit ≠ "km" → scale.unit ≠ "leagues" →
      toMiles scale d = d * 1) :=
  ⟨fun h => toMiles_unit_miles scale h d,
   fun h => toMiles_unit_km scale h d,
   fun h => toMiles_unit_leagues scale h d,
   fun h1 h2 h3 => toMiles_unit_unknown scale h1 h2 h3 d⟩

/-- Witness for C6 on all four unit cases, including the unknown unit
"furlongs". -/
theorem claim_C6_witness :
    toMiles (⟨2, "miles"⟩ : Scale ℚ) 5 = 5 * 1 ∧
    toMiles (⟨2, "km"⟩ : Scale ℚ) 5 = 5 * 0.621371 ∧
    toMiles (⟨2, "leagues"⟩ : Scale ℚ) 5 = 5 * 3 ∧
    toMiles (⟨2, "furlongs"⟩ : Scale ℚ) 5 = 5 * 1 :=
  ⟨(claim_C6 ⟨2, "miles"⟩ 5).1 rfl,
   (claim_C6 ⟨2, "km"⟩ 5).2.1 rfl,
   (claim_C6 ⟨2, "leagues"⟩ 5).2.2.1 rfl,
   (claim_C6 ⟨2, "furlongs"⟩ 5).2.2.2 (by decide) (by decide) (by decide)⟩

/-- The body of formatTime with the let binding expanded. -/
lemma formatTime_eq (days : ℤ) (hours : K) :
    formatTime days hours =
      if days = 0 then
        (if round1 hours < 1 then toString (jsRound (round1 hours * 60)) ++ " min"
         else renderTenths (jsRound (hours * 10)) ++ " hr")
      else if round1 hours = 0 then
        (if days = 1 then "1 day" else toString days ++ " days")
      else
        (if days = 1 then "1 day" else toString days ++ " days") ++ ", " ++
          renderTenths (jsRound (hours * 10)) ++ " hr" := rfl

lemma formatTime_min (days : ℤ) (hours : K) (hd : days = 0)
    (hlt : round1 hours < 1) :
    formatTime days hours = toString (jsRound (round1 hours * 60)) ++ " min" := by
  rw [formatTime_eq, if_pos hd, if_pos hlt]

lemma formatTime_hr (days : ℤ) (hours : K) (hd : days = 0)
    (hge : 1 ≤ round1 hours) :
    formatTime days hours = renderTenths (jsRound (hours * 10)) ++ " hr" := by
  rw [formatTime_eq, if_pos hd, if_neg (not_lt.2 hge)]

lemma formatTime_days_only (days : ℤ) (hours : K) (hd : days ≠ 0)
    (h0 : round1 hours = 0) :
    formatTime days hours =
      (if days = 1 then "1 day" else toString days ++ " days") := by
  rw [formatTime_eq, if_neg hd, if_pos h0]

lemma formatTime_days_and_hours (days : ℤ) (hours : K) (hd : days ≠ 0)
    (h0 : round1 hours ≠ 0) :
    formatTime days hours =
      (if days = 1 then "1 day" else toString days ++ " days") ++ ", " ++
        renderTenths (jsRound (hours * 10)) ++ " hr" := by
  rw [formatTime_eq, if_neg hd, if_neg h0]

/-- Claim C7 (corrected): formatTime first rounds hours to 1 decimal;
then days == 0 with rounded hours < 1 renders whole minutes, days == 0
with rounded hours >= 1 renders hours, NONZERO days (the source tests
`days !== 0`, not `days > 0`) with rounded hours == 0 renders the day
form with the singular exactly when days == 1, and otherwise the
day form followed by the hours; 0.5 hours with 0 days is "30 min". -/
theorem claim_C7 (days : ℤ) (hours : ℚ) :
    (days = 0 → round1 hours < 1 →
      formatTime days hours = toString (jsRound (round1 hours * 60)) ++ " min") ∧
    (days = 0 → 1 ≤ round1 hours →
      formatTime days hours = renderTenths (jsRound (hours * 10)) ++ " hr") ∧
    (days ≠ 0 → round1 hours = 0 →
      formatTime days hours =
        (if days = 1 then "1 day" else toString days ++ " days")) ∧
    (days ≠ 0 → round1 hours ≠ 0 →
      formatTime days hours =
        (if days = 1 then "1 day" else toString days ++ " days") ++ ", " ++
          renderTenths (jsRound (hours * 10)) ++ " hr") ∧
    formatTime (0 : ℤ) ((1 : ℚ) / 2) = "30 min" := by
  refine ⟨formatTime_min days hours, formatTime_hr days hours,
    formatTime_days_only days hours, formatTime_days_and_hours days hours, ?_⟩
  have hr2 : round1 ((1 : ℚ) / 2) = 1 / 2 := by
    rw [round1, jsRound]
    norm_num
  rw [formatTime_min (0 : ℤ) ((1 : ℚ) / 2) rfl (by rw [hr2]; norm_num), hr2,
    show jsRound ((1 : ℚ) / 2 * 60) = 30 from by rw [jsRound]; norm_num]
  rfl

/-- Counterexample to C7 as stated: at days = -1, hours = 0 neither
"days == 0" nor "days > 0 and hours == 0" holds, so the claim's
"otherwise" branch prescribes "-1 days, 0 hr", but the source renders
the day-only form "-1 days" (its test is `days !== 0`). -/
theorem claim_C7_counterexample :
    formatTime (-1 : ℤ) (0 : ℚ) = "-1 days" ∧
    formatTime (-1 : ℤ) (0 : ℚ) ≠ "-1 days, 0 hr" := by
  have hr0 : round1 ((0 : ℚ)) = 0 := by
    rw [round1, jsRound]
    norm_num
  have hval : formatTime (-1 : ℤ) (0 : ℚ) = "-1 days" := by
    rw [formatTime_days_only (-1 : ℤ) (0 : ℚ) (by norm_num) hr0,
      if_neg (by norm_num : ¬ (-1 : ℤ) = 1)]
    rfl
  exact ⟨hval, by rw [hval]; decide⟩

/-- Witness for C7's amended statement at (0 days, 0.5 hours). -/
theorem claim_C7_witness :
    formatTime (0 : ℤ) ((1 : ℚ) / 2) =
      toString (jsRound (round1 ((1 : ℚ) / 2) * 60)) ++ " min" ∧
    formatTime (0 : ℤ) ((1 : ℚ) / 2) = "30 min" :=
  ⟨(claim_C7 0 ((1 : ℚ) / 2)).1 rfl
      (by rw [show round1 ((1 : ℚ) / 2) = 1 / 2 from by rw [round1, jsRound]; norm_num]
          norm_num),
   (claim_C7 0 ((1 : ℚ) / 2)).2.2.2.2⟩

/-- Claim C9 (corrected): for NONNEGATIVE distanceInMiles, positive
effective speed and hoursPerDay in [1, 24], the breakdown satisfies
|days * hoursPerDay + hours - totalHours| <= 0.05.  (For negative
distances the JS `%` remainder and `Math.floor` disagree in sign and the
bound fails, see the counterexample.) -/
theorem claim_C9 (s : Settings ℚ) (d : ℚ) (mode : String)
    (hd : 0 ≤ d) (hspd : 0 < effectiveSpeed s mode)
    (h1 : 1 ≤ s.hoursPerDay) (h24 : s.hoursPerDay ≤ 24) :
    |((calculateTravelTime s d mode).days : ℚ) * s.hoursPerDay +
      (calculateTravelTime s d mode).hours -
      (calculateTravelTime s d mode).totalHours| ≤ 1 / 20 := by
  have hH : (0 : ℚ) < s.hoursPerDay := lt_of_lt_of_le one_pos h1
  have hT0 : 0 ≤ d / effectiveSpeed s mode := div_nonneg hd hspd.le
  have hTH : 0 ≤ d / effectiveSpeed s mode / s.hoursPerDay := div_nonneg hT0 hH.le
  rw [calculateTravelTime_days, calculateTravelTime_hours,
    calculateTravelTime_totalHours]
  have hmod : jsMod (d / effectiveSpeed s mode) s.hoursPerDay =
      d / effectiveSpeed s mode -
        s.hoursPerDay * (⌊d / effectiveSpeed s mode / s.hoursPerDay⌋ : ℚ) := by
    rw [jsMod, jsTrunc, if_neg (not_lt.2 hTH)]
  have key : (⌊d / effectiveSpeed s mode / s.hoursPerDay⌋ : ℚ) * s.hoursPerDay +
      round1 (jsMod (d / effectiveSpeed s mode) s.hoursPerDay) -
      d / effectiveSpeed s mode =
      round1 (jsMod (d / effectiveSpeed s mode) s.hoursPerDay) -
        jsMod (d / effectiveSpeed s mode) s.hoursPerDay := by
    rw [hmod]
    ring
  rw [key]
  exact abs_round1_sub_le _

/-- Counterexample to C9 as stated: at distance -3 with the default
walking speed 3 and hoursPerDay 8, days = floor(-1/8) = -1 but the JS
remainder of -1 by 8 is -1, so days * 8 + hours - totalHours = -8, far
beyond the 0.05 tolerance. -/
theorem claim_C9_counterexample :
    0 < effectiveSpeed (defaultSettings ℚ) "walking" ∧
    1 ≤ (defaultSettings ℚ).hoursPerDay ∧
    (defaultSettings ℚ).hoursPerDay ≤ 24 ∧
    ¬ (|((calculateTravelTime (defaultSettings ℚ) (-3) "walking").days : ℚ) *
        (defaultSettings ℚ).hoursPerDay +
        (calculateTravelTime (defaultSettings ℚ) (-3) "walking").hours -
        (calculateTravelTime (defaultSettings ℚ) (-3) "walking").totalHours| ≤
        1 / 20) := by
  have he : effectiveSpeed (defaultSettings ℚ) "walking" = 3 := by decide
  have hH : (defaultSettings ℚ).hoursPerDay = 8 := rfl
  refine ⟨by rw [he]; norm_num, by rw [hH]; norm_num, by rw [hH]; norm_num, ?_⟩
  have hc : jsTrunc ((-3 : ℚ) / 3 / 8) = 0 := by
    rw [jsTrunc, if_pos (by norm_num : (-3 : ℚ) / 3 / 8 < 0)]
    norm_num
  have hjm : jsMod ((-3 : ℚ) / 3) 8 = -1 := by
    rw [jsMod, hc]
    norm_num
  have hdays : (calculateTravelTime (defaultSettings ℚ) (-3) "walking").days = -1 := by
    rw [calculateTravelTime_days, he, hH]
    norm_num
  have hhrs : (calculateTravelTime (defaultSettings ℚ) (-3) "walking").hours = -1 := by
    rw [calculateTravelTime_hours, he, hH, hjm, round1, jsRound]
    norm_num
  have hth : (calculateTravelTime (defaultSettings ℚ) (-3) "walking").totalHours = -1 := by
    rw [calculateTravelTime_totalHours, he]
    norm_num
  rw [hdays, hhrs, hth, hH,
    show ((-1 : ℤ) : ℚ) * 8 + -1 - -1 = -8 from by norm_num,
    abs_of_nonpos (by norm_num : (-8 : ℚ) ≤ 0)]
  norm_num

/-- Witness for C9's amended statement at 24 miles, walking, defaults. -/
theorem claim_C9_witness :
    (0 : ℚ) ≤ 24 ∧
    0 < effectiveSpeed (defaultSettings ℚ) "walking" ∧
    1 ≤ (defaultSettings ℚ).hoursPerDay ∧
    (defaultSettings ℚ).hoursPerDay ≤ 24 ∧
    |((calculateTravelTime (defaultSettings ℚ) 24 "walking").days : ℚ) *
      (defaultSettings ℚ).hoursPerDay +
      (calculateTravelTime (defaultSettings ℚ) 24 "walking").hours -
      (calculateTravelTime (defaultSettings ℚ) 24 "walking").totalHours| ≤ 1 / 20 :=
  ⟨by norm_num,
   by rw [show effectiveSpeed (defaultSettings ℚ) "walking" = 3 from by decide]; norm_num,
   by rw [show (defaultSettings ℚ).hoursPerDay = 8 from rfl]; norm_num,
   by rw [show (defaultSettings ℚ).hoursPerDay = 8 from rfl]; norm_num,
   claim_C9 (defaultSettings ℚ) 24 "walking" (by norm_num)
     (by rw [show effectiveSpeed (defaultSettings ℚ) "walking" = 3 from by decide]; norm_num)
     (by rw [show (defaultSettings ℚ).hoursPerDay = 8 from rfl]; norm_num)
     (by rw [show (defaultSettings ℚ).hoursPerDay = 8 from rfl]; norm_num)⟩

/-- Claim C8: calculateRouteTime returns null (not an exception) for
fewer than 2 points. -/
theorem claim_C8 (s : Settings ℝ) (points : List (Point ℝ))
    (h : points.length < 2) : calculateRouteTime s points = none := by
  rw [calculateRouteTime, if_pos h]

/-- Witness for C8 on the empty point list. -/
theorem claim_C8_witness :
    ([] : List (Point ℝ)).length < 2 ∧
    calculateRouteTime (defaultSettings ℝ) [] = none :=
  ⟨by norm_num, claim_C8 (defaultSettings ℝ) [] (by norm_num)⟩

lemma calculatePixelDistance_eval (x1 y1 x2 y2 d : ℝ)
    (h : (x2 - x1) * (x2 - x1) + (y2 - y1) * (y2 - y1) = d ^ 2) (hd : 0 ≤ d) :
    calculatePixelDistance ⟨x1, y1⟩ ⟨x2, y2⟩ = d := by
  show Real.sqrt ((x2 - x1) * (x2 - x1) + (y2 - y1) * (y2 - y1)) = d
  rw [h, Real.sqrt_sq hd]

/-- The 3-point route of the spec's worked example. -/
noncomputable def routePoints : List (Point ℝ) := [⟨0, 0⟩, ⟨3, 0⟩, ⟨3, 4⟩]

/-- Default settings with the walking speed set to 3.5 mph, as in the
spec's worked example "for speed 3.5 mph". -/
noncomputable def routeSettings : Settings ℝ :=
  setSpeed (defaultSettings ℝ) "walking" 3.5

lemma segments_map_pixelDistance (s : Settings ℝ) (n : ℕ)
    (l : List (Point ℝ × Point ℝ)) :
    ((List.enumFrom n l).map (fun ip =>
      ({ fromIndex := ip.1
         toIndex := ip.1 + 1
         pixelDistance := calculatePixelDistance ip.2.1 ip.2.2
         distance := pixelsToDistance s.scale (calculatePixelDistance ip.2.1 ip.2.2) } :
        RouteSegment ℝ))).map (fun seg => seg.pixelDistance) =
      l.map (fun pq => calculatePixelDistance pq.1 pq.2) := by
  induction l generalizing n with
  | nil => rfl
  | cons a t ih => simp [List.enumFrom, ih]

/-- Claim C2: calculateRouteTime retains every consecutive segment's
pixel distance, sums them into the total pixel distance, converts only
the total through scale and unit conversion and applies the travel-time
formula per mode; on [(0,0),(3,0),(3,4)] at scale 1:1 miles the segment
distances are 3 and 4, the total is 7, the distance in miles is 7, and
at 3.5 mph totalHours = 2 exactly. -/
theorem claim_C2 :
    (∀ (s : Settings ℝ) (points : List (Point ℝ)), 2 ≤ points.length →
      ∃ r, calculateRouteTime s points = some r ∧
        r.segments.map (fun seg => seg.pixelDistance) = segmentPixelDistances points ∧
        r.totalPixelDistance = (segmentPixelDistances points).sum ∧
        r.walking = calculateTravelTime s
          (toMiles s.scale (pixelsToDistance s.scale
            (segmentPixelDistances points).sum)) "walking" ∧
        r.horse = calculateTravelTime s
          (toMiles s.scale (pixelsToDistance s.scale
            (segmentPixelDistances points).sum)) "horse" ∧
        r.wagon = calculateTravelTime s
          (toMiles s.scale (pixelsToDistance s.scale
            (segmentPixelDistances points).sum)) "wagon") ∧
    (∃ r, calculateRouteTime routeSettings routePoints = some r ∧
      r.segments.map (fun seg => seg.pixelDistance) = [3, 4] ∧
      r.totalPixelDistance = 7 ∧
      toMiles routeSettings.scale
        (pixelsToDistance routeSettings.scale r.totalPixelDistance) = 7 ∧
      r.walking.totalHours = 2) := by
  have hgen : ∀ (s : Settings ℝ) (points : List (Point ℝ)), 2 ≤ points.length →
      ∃ r, calculateRouteTime s points = some r ∧
        r.segments.map (fun seg => seg.pixelDistance) = segmentPixelDistances points ∧
        r.totalPixelDistance = (segmentPixelDistances points).sum ∧
        r.walking = calculateTravelTime s
          (toMiles s.scale (pixelsToDistance s.scale
            (segmentPixelDistances points).sum)) "walking" ∧
        r.horse = calculateTravelTime s
          (toMiles s.scale (pixelsToDistance s.scale
            (segmentPixelDistances points).sum)) "horse" ∧
        r.wagon = calculateTravelTime s
          (toMiles s.scale (pixelsToDistance s.scale
            (segmentPixelDistances points).sum)) "wagon" := by
    intro s points hlen
    rw [calculateRouteTime, if_neg (not_lt.2 hlen)]
    refine ⟨_, rfl, ?_, rfl, rfl, rfl, rfl⟩
    exact segments_map_pixelDistance s 0 (points.zip points.tail)
  refine ⟨hgen, ?_⟩
  obtain ⟨r, hr, hseg, htot, hwalk, hhorse, hwagon⟩ :=
    hgen routeSettings routePoints (by norm_num [routePoints])
  have hd1 : calculatePixelDistance ⟨0, 0⟩ ⟨3, 0⟩ = 3 :=
    calculatePixelDistance_eval 0 0 3 0 3 (by norm_num) (by norm_num)
  have hd2 : calculatePixelDistance ⟨3, 0⟩ ⟨3, 4⟩ = 4 :=
    calculatePixelDistance_eval 3 0 3 4 4 (by norm_num) (by norm_num)
  have hsegs : segmentPixelDistances routePoints = [3, 4] := by
    show [calculatePixelDistance ⟨0, 0⟩ ⟨3, 0⟩,
      calculatePixelDistance ⟨3, 0⟩ ⟨3, 4⟩] = [3, 4]
    rw [hd1, hd2]
  have hsum : (segmentPixelDistances routePoints).sum = 7 := by
    rw [hsegs]
    norm_num [List.sum_cons, List.sum_nil]
  have hscaleUnit : routeSettings.scale.unit = "miles" := rfl
  have hscalePpu : routeSettings.scale.pixelsPerUnit = 1 := rfl
  have hes : effectiveSpeed routeSettings "walking" = 3.5 :=
    effectiveSpeed_of_lookup routeSettings "walking" 3.5 rfl (by norm_num)
  refine ⟨r, hr, ?_, ?_, ?_, ?_⟩
  · rw [hseg, hsegs]
  · rw [htot, hsum]
  · rw [htot, hsum, toMiles_unit_miles routeSettings.scale hscaleUnit,
      pixelsToDistance, hscalePpu]
    norm_num
  · rw [hwalk, calculateTravelTime_totalHours, hsum,
      toMiles_unit_miles routeSettings.scale hscaleUnit, pixelsToDistance,
      hscalePpu, hes]
    norm_num

/-- Witness for C2's universally quantified part at the worked example. -/
theorem claim_C2_witness :
    2 ≤ routePoints.length ∧
    (∃ r, calculateRouteTime routeSettings routePoints = some r ∧
      r.segments.map (fun seg => seg.pixelDistance) = segmentPixelDistances routePoints ∧
      r.totalPixelDistance = (segmentPixelDistances routePoints).sum ∧
      r.walking = calculateTravelTime routeSettings
        (toMiles routeSettings.scale (pixelsToDistance routeSettings.scale
          (segmentPixelDistances routePoints).sum)) "walking" ∧
      r.horse = calculateTravelTime routeSettings
        (toMiles routeSettings.scale (pixelsToDistance routeSettings.scale
          (segmentPixelDistances routePoints).sum)) "horse" ∧
      r.wagon = calculateTravelTime routeSettings
        (toMiles routeSettings.scale (pixelsToDistance routeSettings.scale
          (segmentPixelDistances routePoints).sum)) "wagon") :=
  ⟨by norm_num [routePoints],
   claim_C2.1 routeSettings routePoints (by norm_num [routePoints])⟩
